import Mathlib

/-!
Verification of the LLM client facade in src/tools/llm_api.py: a shallow
embedding of create_llm_client, query_llm and the CLI entry point main,
together with the token-tracking ledger boundary they call into.

The token_tracker module itself is not under src/, so its value types and
the two cost functions are modelled from the spec; everything else is
translated directly from src/tools/llm_api.py. Network calls and
exceptions raised by collaborators are modelled through an explicit
per-call environment (CallEnv): an Except.error value stands for a raised
exception at that call site, and the Boolean flags stand for the cost
calculation or track_request raising.
-/

namespace LlmApi

/-- Modelled from the spec: the UsageRecord value type of the token_tracker
module (not under src/). Field names follow the construction sites in
src/tools/llm_api.py; reasoning_tokens is optional and defaults to none,
as the anthropic construction site omits it. -/
structure TokenUsage where
  prompt_tokens : Nat
  completion_tokens : Nat
  total_tokens : Nat
  reasoning_tokens : Option Nat := none
deriving Repr, DecidableEq

/-- Modelled from the spec: the RequestRecord value type of the
token_tracker module (not under src/). Field names follow the construction
sites in src/tools/llm_api.py; monetary cost and wall-clock thinking time
are modelled as rationals; the timestamp field, defaulted at construction
time and never passed by query_llm, is elided. -/
structure APIResponse where
  content : String
  token_usage : TokenUsage
  cost : ℚ
  thinking_time : ℚ
  provider : String
  model : String
deriving Repr, DecidableEq

/-- One part of the content list of a chat message, as built in query_llm:
plain text, an OpenAI-style image_url part, or an Anthropic-style base64
image part. -/
inductive ContentPart where
  | text (s : String)
  | image_url (url : String)
  | image (media_type : String) (data : String)
deriving Repr, DecidableEq

/-- Usage block of an OpenAI-style chat completion response, as read by
query_llm (fields prompt_tokens, completion_tokens, total_tokens,
reasoning_tokens). -/
structure OpenAIUsage where
  prompt_tokens : Nat
  completion_tokens : Nat
  total_tokens : Nat
  reasoning_tokens : Option Nat
deriving Repr, DecidableEq

/-- An OpenAI-style chat completion response: its usage block and the
content of choices[0].message. -/
structure OpenAIResponse where
  usage : OpenAIUsage
  content : String
deriving Repr, DecidableEq

/-- Usage block of an Anthropic messages response (input_tokens,
output_tokens). -/
structure AnthropicUsage where
  input_tokens : Nat
  output_tokens : Nat
deriving Repr, DecidableEq

/-- An Anthropic messages response: its usage block and the text of
content[0]. -/
structure AnthropicResponse where
  usage : AnthropicUsage
  content : String
deriving Repr, DecidableEq

/-- A Gemini generate_content response: its text attribute. -/
structure GeminiResponse where
  text : String
deriving Repr, DecidableEq

/-- Environment of a single query_llm call: what each provider network
call would return or raise (Except.error stands for a raised exception),
whether the cost calculation or track_request would raise, the measured
wall-clock time, and the image-file encoder (excluded glue per the spec,
returning the base64 data and the MIME type). -/
structure CallEnv where
  openaiResp : Except String OpenAIResponse
  anthropicResp : Except String AnthropicResponse
  geminiResp : Except String GeminiResponse
  costRaises : Bool
  trackRaises : Bool
  thinking_time : ℚ
  encodeImage : String → String × String

/-- Observable outcome of one query_llm call: the returned value, the
ledger after the call, and the message content of the request issued to
the provider (none when no request was issued). -/
structure QueryResult where
  response : Option String
  ledger : List APIResponse
  sentRequest : Option (List ContentPart)
deriving Repr, DecidableEq

/-- Python truthiness of an os.getenv result: None and the empty string
are falsy, every other string is truthy. -/
def envTruthy : Option String → Bool
  | none => false
  | some s => s != ""

/-- Python str.lower, written over the character list so that it reduces
definitionally (String.toLower is extensionally the same map). -/
def pyLower (s : String) : String := String.mk (s.data.map Char.toLower)

/-- Python str.startswith, written over the character lists so that it
reduces definitionally. -/
def pyStartsWith (s pre : String) : Bool := List.isPrefixOf pre.data s.data

/-- The provider names accepted by the if chain of create_llm_client in
src/tools/llm_api.py. -/
def supportedProviders : List String :=
  ["openai", "azure", "deepseek", "anthropic", "gemini", "local"]

/-- Translation of create_llm_client from src/tools/llm_api.py. The
returned client object carries no information relevant to the claims, so
it is modelled as Unit; a raised ValueError is Except.error with the
message. The environment is the os.getenv map. -/
def create_llm_client (provider : String) (osEnv : String → Option String) :
    Except String Unit :=
  if provider = "openai" then
    if envTruthy (osEnv "OPENAI_API_KEY") then Except.ok ()
    else Except.error "OPENAI_API_KEY not found in environment variables"
  else if provider = "azure" then
    if envTruthy (osEnv "AZURE_OPENAI_API_KEY") then Except.ok ()
    else Except.error "AZURE_OPENAI_API_KEY not found in environment variables"
  else if provider = "deepseek" then
    if envTruthy (osEnv "DEEPSEEK_API_KEY") then Except.ok ()
    else Except.error "DEEPSEEK_API_KEY not found in environment variables"
  else if provider = "anthropic" then
    if envTruthy (osEnv "ANTHROPIC_API_KEY") then Except.ok ()
    else Except.error "ANTHROPIC_API_KEY not found in environment variables"
  else if provider = "gemini" then
    if envTruthy (osEnv "GOOGLE_API_KEY") then Except.ok ()
    else Except.error "GOOGLE_API_KEY not found in environment variables"
  else if provider = "local" then Except.ok ()
  else Except.error ("Unsupported provider: " ++ provider)

/-- Default model selection of query_llm when model is None, translated
from src/tools/llm_api.py lines 148 to 160. For an unrecognized provider
the model stays None. -/
def defaultModel (provider : String) (osEnv : String → Option String) :
    Option String :=
  if provider = "openai" then some "gpt-4o"
  else if provider = "azure" then
    some ((osEnv "AZURE_OPENAI_MODEL_DEPLOYMENT").getD "gpt-4o-ms")
  else if provider = "deepseek" then some "deepseek-chat"
  else if provider = "anthropic" then some "claude-3-5-sonnet-20241022"
  else if provider = "gemini" then some "gemini-pro"
  else if provider = "local" then some "Qwen/Qwen2.5-32B-Instruct-AWQ"
  else none

/-- Message content built in the OpenAI-style branch of query_llm: the
text part, replaced by text plus an image_url part when an image path is
given and the provider is exactly openai. -/
def openaiMessages (prompt : String) (provider : String)
    (image_path : Option String) (env : CallEnv) : List ContentPart :=
  match image_path with
  | some p =>
    if provider = "openai" then
      let enc := env.encodeImage p
      [ContentPart.text prompt,
       ContentPart.image_url ("data:" ++ enc.2 ++ ";base64," ++ enc.1)]
    else [ContentPart.text prompt]
  | none => [ContentPart.text prompt]

/-- Message content built in the anthropic branch of query_llm: the text
part, with a base64 image part appended when an image path is given. -/
def anthropicMessages (prompt : String) (image_path : Option String)
    (env : CallEnv) : List ContentPart :=
  match image_path with
  | some p =>
    let enc := env.encodeImage p
    [ContentPart.text prompt, ContentPart.image enc.2 enc.1]
  | none => [ContentPart.text prompt]

/-- Modelled from the spec: calculate_openai_cost of the token_tracker
module (not under src/). Its signature is fixed by the call site in
src/tools/llm_api.py (prompt tokens, completion tokens, model); the body
follows the pricing formula of the spec, cost equals prompt_tokens over
unit size times prompt price plus completion_tokens over unit size times
completion price, with a representative per-million-token price table. -/
def calculate_openai_cost (prompt_tokens completion_tokens : Nat)
    (model : String) : ℚ :=
  let prices : ℚ × ℚ :=
    if pyStartsWith model "o1" then (15, 60)
    else if pyStartsWith model "deepseek" then (14/100, 28/100)
    else (5/2, 10)
  (prompt_tokens : ℚ) / 1000000 * prices.1 +
    (completion_tokens : ℚ) / 1000000 * prices.2

/-- Modelled from the spec: calculate_claude_cost of the token_tracker
module (not under src/). Its signature is fixed by the call site in
src/tools/llm_api.py; the body follows the pricing formula of the spec
with a representative per-million-token price table. -/
def calculate_claude_cost (prompt_tokens completion_tokens : Nat)
    (model : String) : ℚ :=
  let prices : ℚ × ℚ :=
    if pyStartsWith model "claude-3-5" then (3, 15) else (3, 15)
  (prompt_tokens : ℚ) / 1000000 * prices.1 +
    (completion_tokens : ℚ) / 1000000 * prices.2

/-- Modelled from the spec: track_request of the token_tracker module (not
under src/) appends the record to the process-wide ledger. -/
def track_request (record : APIResponse) (ledger : List APIResponse) :
    List APIResponse :=
  ledger ++ [record]

/-- TokenUsage constructed in the OpenAI-style branch of query_llm, lines
198 to 203 of src/tools/llm_api.py: provider counts stored verbatim, and
reasoning_tokens kept only when the lower-cased model name starts with the
letter o. -/
def openai_token_usage (resp : OpenAIResponse) (model : String) : TokenUsage :=
  { prompt_tokens := resp.usage.prompt_tokens
    completion_tokens := resp.usage.completion_tokens
    total_tokens := resp.usage.total_tokens
    reasoning_tokens :=
      if pyStartsWith (pyLower model) "o" then resp.usage.reasoning_tokens
      else none }

/-- APIResponse record built in the OpenAI-style branch of query_llm,
lines 205 to 220 of src/tools/llm_api.py. -/
def openai_api_response (provider model : String) (resp : OpenAIResponse)
    (thinking_time : ℚ) : APIResponse :=
  { content := resp.content
    token_usage := openai_token_usage resp model
    cost := calculate_openai_cost resp.usage.prompt_tokens
      resp.usage.completion_tokens model
    thinking_time := thinking_time
    provider := provider
    model := model }

/-- TokenUsage constructed in the anthropic branch of query_llm, lines 254
to 258 of src/tools/llm_api.py: the total is computed as the sum of input
and output tokens, and reasoning_tokens is left at its default none. -/
def anthropic_token_usage (resp : AnthropicResponse) : TokenUsage :=
  { prompt_tokens := resp.usage.input_tokens
    completion_tokens := resp.usage.output_tokens
    total_tokens := resp.usage.input_tokens + resp.usage.output_tokens }

/-- APIResponse record built in the anthropic branch of query_llm, lines
260 to 275 of src/tools/llm_api.py. -/
def anthropic_api_response (provider model : String)
    (resp : AnthropicResponse) (thinking_time : ℚ) : APIResponse :=
  { content := resp.content
    token_usage := anthropic_token_usage resp
    cost := calculate_claude_cost resp.usage.input_tokens
      resp.usage.output_tokens model
    thinking_time := thinking_time
    provider := provider
    model := model }

/-- Body of the try block of query_llm, lines 146 to 287 of
src/tools/llm_api.py. Every exception raised inside it (a failed network
call, a raising cost calculation or track_request) is caught by the
enclosing except handler, which returns None; that is why every branch
yields a plain QueryResult rather than an Except. The o1-specific request
keyword arguments, which do not affect any claim, are elided from the
recorded request. -/
def query_llm_try (prompt : String) (model0 : Option String)
    (provider : String) (image_path : Option String) (env : CallEnv)
    (osEnv : String → Option String) (ledger : List APIResponse) :
    QueryResult :=
  let model := match model0 with
    | some m => some m
    | none => defaultModel provider osEnv
  if provider = "openai" ∨ provider = "local" ∨ provider = "deepseek" ∨
      provider = "azure" then
    let msgs := openaiMessages prompt provider image_path env
    match env.openaiResp with
    | Except.error _ =>
      { response := none, ledger := ledger, sentRequest := some msgs }
    | Except.ok resp =>
      match model with
      | none =>
        -- unreachable: defaultModel covers every provider of this branch
        { response := none, ledger := ledger, sentRequest := some msgs }
      | some m =>
        if env.costRaises then
          { response := none, ledger := ledger, sentRequest := some msgs }
        else
          let api_response := openai_api_response provider m resp
            env.thinking_time
          if env.trackRaises then
            { response := none, ledger := ledger, sentRequest := some msgs }
          else
            { response := some resp.content
              ledger := track_request api_response ledger
              sentRequest := some msgs }
  else if provider = "anthropic" then
    let msgs := anthropicMessages prompt image_path env
    match env.anthropicResp with
    | Except.error _ =>
      { response := none, ledger := ledger, sentRequest := some msgs }
    | Except.ok resp =>
      match model with
      | none =>
        -- unreachable: defaultModel covers the anthropic provider
        { response := none, ledger := ledger, sentRequest := some msgs }
      | some m =>
        if env.costRaises then
          { response := none, ledger := ledger, sentRequest := some msgs }
        else
          let api_response := anthropic_api_response provider m resp
            env.thinking_time
          if env.trackRaises then
            { response := none, ledger := ledger, sentRequest := some msgs }
          else
            { response := some resp.content
              ledger := track_request api_response ledger
              sentRequest := some msgs }
  else if provider = "gemini" then
    match env.geminiResp with
    | Except.error _ =>
      { response := none, ledger := ledger
        sentRequest := some [ContentPart.text prompt] }
    | Except.ok resp =>
      { response := some resp.text, ledger := ledger
        sentRequest := some [ContentPart.text prompt] }
  else
    -- the if chain falls through and the function returns None
    { response := none, ledger := ledger, sentRequest := none }

/-- Translation of query_llm from src/tools/llm_api.py: when no client is
supplied, create_llm_client runs outside the try block and its ValueError
propagates to the caller (Except.error); otherwise the try body runs and
never raises. -/
def query_llm (prompt : String) (client : Option Unit)
    (model0 : Option String) (provider : String)
    (image_path : Option String) (env : CallEnv)
    (osEnv : String → Option String) (ledger : List APIResponse) :
    Except String QueryResult :=
  match client with
  | some _ =>
    Except.ok (query_llm_try prompt model0 provider image_path env osEnv
      ledger)
  | none =>
    match create_llm_client provider osEnv with
    | Except.error e => Except.error e
    | Except.ok _ =>
      Except.ok (query_llm_try prompt model0 provider image_path env osEnv
        ledger)

/-- Line printed by main from the query_llm result, lines 311 to 314 of
src/tools/llm_api.py: Python truthiness makes both None and the empty
string take the failure branch. main never calls sys.exit, so the process
exit code stays zero either way. -/
def main_output (response : Option String) : String :=
  match response with
  | some s => if s != "" then s else "Failed to get response from LLM"
  | none => "Failed to get response from LLM"

/-- True when the content list carries any non-text part, i.e. any image
content. -/
def hasImagePart (parts : List ContentPart) : Bool :=
  parts.any fun part =>
    match part with
    | ContentPart.text _ => false
    | _ => true

/-- Helper: with a supplied client, query_llm is the try body wrapped in
Except.ok. -/
theorem query_llm_some_client (prompt : String) (model0 : Option String)
    (provider : String) (image_path : Option String) (env : CallEnv)
    (osEnv : String → Option String) (ledger : List APIResponse) :
    query_llm prompt (some ()) model0 provider image_path env osEnv ledger =
      Except.ok (query_llm_try prompt model0 provider image_path env osEnv
        ledger) := rfl

/-- C7: create_llm_client fails fast with a ValueError when the required
API-key environment variable of the selected provider is absent, fails for
any provider outside the supported set, and needs no credential for the
local provider. -/
theorem create_llm_client_fail_fast (osEnv : String → Option String) :
    (osEnv "OPENAI_API_KEY" = none →
      ∃ e, create_llm_client "openai" osEnv = Except.error e) ∧
    (osEnv "AZURE_OPENAI_API_KEY" = none →
      ∃ e, create_llm_client "azure" osEnv = Except.error e) ∧
    (osEnv "DEEPSEEK_API_KEY" = none →
      ∃ e, create_llm_client "deepseek" osEnv = Except.error e) ∧
    (osEnv "ANTHROPIC_API_KEY" = none →
      ∃ e, create_llm_client "anthropic" osEnv = Except.error e) ∧
    (osEnv "GOOGLE_API_KEY" = none →
      ∃ e, create_llm_client "gemini" osEnv = Except.error e) ∧
    (∀ p, p ∉ supportedProviders →
      ∃ e, create_llm_client p osEnv = Except.error e) ∧
    create_llm_client "local" osEnv = Except.ok () := by
  refine ⟨fun h => ⟨"OPENAI_API_KEY not found in environment variables", ?_⟩,
    fun h => ⟨"AZURE_OPENAI_API_KEY not found in environment variables", ?_⟩,
    fun h => ⟨"DEEPSEEK_API_KEY not found in environment variables", ?_⟩,
    fun h => ⟨"ANTHROPIC_API_KEY not found in environment variables", ?_⟩,
    fun h => ⟨"GOOGLE_API_KEY not found in environment variables", ?_⟩,
    fun p hp => ?_, ?_⟩
  · simp [create_llm_client, envTruthy, h]
  · simp [create_llm_client, envTruthy, h]
  · simp [create_llm_client, envTruthy, h]
  · simp [create_llm_client, envTruthy, h]
  · simp [create_llm_client, envTruthy, h]
  · simp only [supportedProviders, List.mem_cons, List.not_mem_nil, or_false,
      not_or] at hp
    obtain ⟨h1, h2, h3, h4, h5, h6⟩ := hp
    exact ⟨"Unsupported provider: " ++ p,
      by simp [create_llm_client, h1, h2, h3, h4, h5, h6]⟩
  · simp [create_llm_client]

/-- C7 witness: with an empty environment every keyed provider fails, an
unknown provider fails, and the local provider succeeds. -/
theorem create_llm_client_fail_fast_witness :
    (∃ e, create_llm_client "openai" (fun _ => none) = Except.error e) ∧
    (∃ e, create_llm_client "bogus" (fun _ => none) = Except.error e) ∧
    create_llm_client "local" (fun _ => none) = Except.ok () :=
  ⟨(create_llm_client_fail_fast (fun _ => none)).1 rfl,
   (create_llm_client_fail_fast (fun _ => none)).2.2.2.2.2.1 "bogus"
     (by decide),
   (create_llm_client_fail_fast (fun _ => none)).2.2.2.2.2.2⟩

/-- C10: with a supplied client and a provider outside the recognized set,
query_llm returns None, issues no request and leaves the ledger
unchanged. -/
theorem unknown_provider_returns_none (prompt : String)
    (model0 : Option String) (provider : String) (image_path : Option String)
    (env : CallEnv) (osEnv : String → Option String)
    (ledger : List APIResponse) (h : provider ∉ supportedProviders) :
    query_llm prompt (some ()) model0 provider image_path env osEnv ledger =
      Except.ok { response := none, ledger := ledger, sentRequest := none } := by
  simp only [supportedProviders, List.mem_cons, List.not_mem_nil, or_false,
    not_or] at h
  obtain ⟨h1, h2, h3, h4, h5, h6⟩ := h
  simp [query_llm, query_llm_try, h1, h2, h3, h4, h5, h6]

/-- C10 witness: a concrete unrecognized provider name. -/
theorem unknown_provider_returns_none_witness :
    query_llm "hi" (some ()) none "mistral" none
      { openaiResp := Except.error "down", anthropicResp := Except.error "down"
        geminiResp := Except.error "down", costRaises := false
        trackRaises := false, thinking_time := 0
        encodeImage := fun _ => ("", "image/png") } (fun _ => none) [] =
      Except.ok { response := none, ledger := [], sentRequest := none } :=
  unknown_provider_returns_none "hi" none "mistral" none _ _ [] (by decide)

/-- C2: for the gemini provider with a successful generate_content call,
query_llm returns the response text, the ledger is unchanged (no record
appended, no cost attributed), and the request carries only the prompt. -/
theorem gemini_untracked_response (prompt : String) (model0 : Option String)
    (image_path : Option String) (env : CallEnv)
    (osEnv : String → Option String) (ledger : List APIResponse)
    (g : GeminiResponse) (hg : env.geminiResp = Except.ok g) :
    query_llm prompt (some ()) model0 "gemini" image_path env osEnv ledger =
      Except.ok { response := some g.text, ledger := ledger
                  sentRequest := some [ContentPart.text prompt] } := by
  simp [query_llm, query_llm_try, hg]

/-- C2 witness: a concrete gemini call. -/
theorem gemini_untracked_response_witness :
    query_llm "hi" (some ()) none "gemini" none
      { openaiResp := Except.error "n/a", anthropicResp := Except.error "n/a"
        geminiResp := Except.ok { text := "pong" }, costRaises := false
        trackRaises := false, thinking_time := 0
        encodeImage := fun _ => ("", "image/png") } (fun _ => none) [] =
      Except.ok { response := some "pong", ledger := []
                  sentRequest := some [ContentPart.text "hi"] } :=
  gemini_untracked_response "hi" none none _ _ [] { text := "pong" } rfl

/-- C5: every TokenUsage constructed by query_llm satisfies the invariant
that the total is the sum of prompt and completion tokens, except that the
OpenAI-style construction stores the provider-reported total verbatim. The
two definitions below are the only TokenUsage construction sites of
query_llm. -/
theorem total_tokens_invariant (a : AnthropicResponse) (o : OpenAIResponse)
    (m : String) :
    (anthropic_token_usage a).total_tokens =
      (anthropic_token_usage a).prompt_tokens +
        (anthropic_token_usage a).completion_tokens ∧
    (openai_token_usage o m).total_tokens = o.usage.total_tokens :=
  ⟨rfl, rfl⟩

/-- C8 counterexample: query_llm can succeed with an empty response text
(modelled here through gemini), yet main prints the failure message rather
than the response, because Python truthiness sends the empty string down
the failure branch. -/
theorem main_prints_response_cex :
    (query_llm "hi" (some ()) none "gemini" none
      { openaiResp := Except.error "n/a", anthropicResp := Except.error "n/a"
        geminiResp := Except.ok { text := "" }, costRaises := false
        trackRaises := false, thinking_time := 0
        encodeImage := fun _ => ("", "image/png") } (fun _ => none) [] =
      Except.ok { response := some "", ledger := []
                  sentRequest := some [ContentPart.text "hi"] }) ∧
    main_output (some "") = "Failed to get response from LLM" ∧
    main_output (some "") ≠ "" :=
  ⟨rfl, rfl, by decide⟩

/-- C8 amended: main prints the response exactly when query_llm returns a
non-empty string; when query_llm returns None or the empty string, main
prints the fixed failure message and returns normally (exit code zero,
never non-zero). -/
theorem main_output_spec (s : String) :
    (s ≠ "" → main_output (some s) = s) ∧
    main_output (some "") = "Failed to get response from LLM" ∧
    main_output none = "Failed to get response from LLM" := by
  refine ⟨fun h => ?_, rfl, rfl⟩
  simp [main_output, h]

/-- C8 witness: a concrete non-empty response is printed verbatim. -/
theorem main_output_spec_witness :
    "pong" ≠ "" ∧ main_output (some "pong") = "pong" :=
  ⟨by decide, (main_output_spec "pong").1 (by decide)⟩

/-- C4: the cost recorded by query_llm in the OpenAI-style branch depends
only on prompt tokens, completion tokens and the model: two responses
agreeing on those fields yield the same cost whatever their
reasoning_tokens, reported total, content or timing; in particular a
response with completion_tokens 100 and reasoning_tokens 40 costs the
same as one with reasoning_tokens absent. -/
theorem cost_ignores_reasoning_tokens (provider m : String) (tt tt2 : ℚ)
    (r r2 : OpenAIResponse)
    (hp : r.usage.prompt_tokens = r2.usage.prompt_tokens)
    (hc : r.usage.completion_tokens = r2.usage.completion_tokens) :
    (openai_api_response provider m r tt).cost =
      (openai_api_response provider m r2 tt2).cost := by
  simp [openai_api_response, hp, hc]

/-- C4 witness: completion_tokens 100 with reasoning_tokens 40 bills the
same as with reasoning_tokens absent. -/
theorem cost_ignores_reasoning_tokens_witness :
    (openai_api_response "openai" "o1"
      { usage := { prompt_tokens := 10, completion_tokens := 100
                   total_tokens := 140, reasoning_tokens := some 40 }
        content := "a" } 0).cost =
    (openai_api_response "openai" "o1"
      { usage := { prompt_tokens := 10, completion_tokens := 100
                   total_tokens := 110, reasoning_tokens := none }
        content := "b" } 1).cost :=
  cost_ignores_reasoning_tokens "openai" "o1" 0 1 _ _ rfl rfl

/-- C3: in the OpenAI-style branch with a successful call and no tracking
failure, query_llm appends exactly the openai_api_response record, and
that record carries the provider-reported reasoning_tokens when the
lower-cased model name starts with the letter o, and None otherwise. -/
theorem reasoning_tokens_o_model (prompt m provider : String)
    (image_path : Option String) (env : CallEnv)
    (osEnv : String → Option String) (ledger : List APIResponse)
    (resp : OpenAIResponse)
    (hp : provider = "openai" ∨ provider = "local" ∨ provider = "deepseek" ∨
      provider = "azure")
    (hr : env.openaiResp = Except.ok resp)
    (hcost : env.costRaises = false) (htrack : env.trackRaises = false) :
    query_llm prompt (some ()) (some m) provider image_path env osEnv ledger =
      Except.ok { response := some resp.content
                  ledger := ledger ++
                    [openai_api_response provider m resp env.thinking_time]
                  sentRequest :=
                    some (openaiMessages prompt provider image_path env) } ∧
    (pyStartsWith (pyLower m) "o" = true →
      (openai_api_response provider m resp
        env.thinking_time).token_usage.reasoning_tokens =
        resp.usage.reasoning_tokens) ∧
    (pyStartsWith (pyLower m) "o" = false →
      (openai_api_response provider m resp
        env.thinking_time).token_usage.reasoning_tokens = none) := by
  refine ⟨?_, fun h => ?_, fun h => ?_⟩
  · rcases hp with h | h | h | h <;> subst h <;>
      simp [query_llm, query_llm_try, hr, hcost, htrack, track_request]
  · simp [openai_api_response, openai_token_usage, h]
  · simp [openai_api_response, openai_token_usage, h]

/-- C3 witness: under the o1 model the recorded reasoning_tokens is the
provider-reported 40. -/
theorem reasoning_tokens_o_model_witness :
    (openai_api_response "openai" "o1"
      { usage := { prompt_tokens := 1, completion_tokens := 2
                   total_tokens := 3, reasoning_tokens := some 40 }
        content := "hi" } 0).token_usage.reasoning_tokens = some 40 :=
  (reasoning_tokens_o_model "q" "o1" "openai" none
    { openaiResp := Except.ok
        { usage := { prompt_tokens := 1, completion_tokens := 2
                     total_tokens := 3, reasoning_tokens := some 40 }
          content := "hi" }
      anthropicResp := Except.error "n/a", geminiResp := Except.error "n/a"
      costRaises := false, trackRaises := false, thinking_time := 0
      encodeImage := fun _ => ("", "image/png") }
    (fun _ => none) [] _ (Or.inl rfl) rfl rfl rfl).2.1 (by decide)

/-- C1 counterexample: a successful openai call whose track_request raises.
The claim says query_llm still returns the response text hello; the code
catches the exception and returns None instead, with the request having
been issued and the ledger unchanged. -/
theorem tracking_failure_cex :
    query_llm "hi" (some ()) (some "gpt-4o") "openai" none
      { openaiResp := Except.ok
          { usage := { prompt_tokens := 1, completion_tokens := 2
                       total_tokens := 3, reasoning_tokens := none }
            content := "hello" }
        anthropicResp := Except.error "n/a", geminiResp := Except.error "n/a"
        costRaises := false, trackRaises := true, thinking_time := 0
        encodeImage := fun _ => ("", "image/png") } (fun _ => none) [] =
      Except.ok { response := none, ledger := []
                  sentRequest := some [ContentPart.text "hi"] } := rfl

/-- C1 corrected: when the provider call succeeds but the cost calculation
or track_request raises, the enclosing except handler of query_llm returns
None and leaves the ledger unchanged: a tracking failure aborts the call
instead of degrading it to an untracked success. -/
theorem tracking_failure_aborts (prompt m provider : String)
    (image_path : Option String) (env : CallEnv)
    (osEnv : String → Option String) (ledger : List APIResponse)
    (hp : (provider = "openai" ∨ provider = "local" ∨ provider = "deepseek" ∨
        provider = "azure") ∧ (∃ resp, env.openaiResp = Except.ok resp) ∨
      provider = "anthropic" ∧ ∃ resp, env.anthropicResp = Except.ok resp)
    (hfail : env.costRaises = true ∨ env.trackRaises = true) :
    ∃ req, query_llm prompt (some ()) (some m) provider image_path env osEnv
      ledger =
      Except.ok { response := none, ledger := ledger, sentRequest := req } := by
  rcases hfail with hf | hf
  · rcases hp with ⟨hp, resp, hr⟩ | ⟨hp, resp, hr⟩
    · refine ⟨some (openaiMessages prompt provider image_path env), ?_⟩
      rcases hp with h | h | h | h <;> subst h <;>
        simp [query_llm, query_llm_try, hr, hf]
    · refine ⟨some (anthropicMessages prompt image_path env), ?_⟩
      subst hp
      simp [query_llm, query_llm_try, hr, hf]
  · rcases hp with ⟨hp, resp, hr⟩ | ⟨hp, resp, hr⟩
    · refine ⟨some (openaiMessages prompt provider image_path env), ?_⟩
      rcases hp with h | h | h | h <;> subst h <;>
        cases hc : env.costRaises <;>
        simp [query_llm, query_llm_try, hr, hf, hc]
    · refine ⟨some (anthropicMessages prompt image_path env), ?_⟩
      subst hp
      cases hc : env.costRaises <;>
        simp [query_llm, query_llm_try, hr, hf, hc]

/-- C1 witness: a concrete successful openai call with a raising
track_request yields None and an unchanged ledger. -/
theorem tracking_failure_aborts_witness :
    ∃ req, query_llm "hi" (some ()) (some "gpt-4o") "openai" none
      { openaiResp := Except.ok
          { usage := { prompt_tokens := 1, completion_tokens := 2
                       total_tokens := 3, reasoning_tokens := none }
            content := "hello" }
        anthropicResp := Except.error "n/a", geminiResp := Except.error "n/a"
        costRaises := false, trackRaises := true, thinking_time := 0
        encodeImage := fun _ => ("", "image/png") } (fun _ => none) [] =
      Except.ok { response := none, ledger := [], sentRequest := req } :=
  tracking_failure_aborts "hi" "gpt-4o" "openai" none _ (fun _ => none) []
    (Or.inl ⟨Or.inl rfl, ⟨_, rfl⟩⟩) (Or.inr rfl)

/-- C6: when the provider network call raises, query_llm returns None and
the ledger is unchanged: no APIResponse is created and nothing is
tracked. -/
theorem api_error_untracked (prompt m provider : String)
    (image_path : Option String) (env : CallEnv)
    (osEnv : String → Option String) (ledger : List APIResponse)
    (hp : (provider = "openai" ∨ provider = "local" ∨ provider = "deepseek" ∨
        provider = "azure") ∧ (∃ e, env.openaiResp = Except.error e) ∨
      provider = "anthropic" ∧ (∃ e, env.anthropicResp = Except.error e) ∨
      provider = "gemini" ∧ ∃ e, env.geminiResp = Except.error e) :
    ∃ req, query_llm prompt (some ()) (some m) provider image_path env osEnv
      ledger =
      Except.ok { response := none, ledger := ledger, sentRequest := req } := by
  rcases hp with ⟨hp, e, hr⟩ | ⟨hp, e, hr⟩ | ⟨hp, e, hr⟩
  · refine ⟨some (openaiMessages prompt provider image_path env), ?_⟩
    rcases hp with h | h | h | h <;> subst h <;>
      simp [query_llm, query_llm_try, hr]
  · refine ⟨some (anthropicMessages prompt image_path env), ?_⟩
    subst hp
    simp [query_llm, query_llm_try, hr]
  · refine ⟨some [ContentPart.text prompt], ?_⟩
    subst hp
    simp [query_llm, query_llm_try, hr]

/-- C6 witness: a concrete failing gemini call leaves the ledger unchanged
and yields None. -/
theorem api_error_untracked_witness :
    ∃ req, query_llm "hi" (some ()) (some "gemini-pro") "gemini" none
      { openaiResp := Except.error "down", anthropicResp := Except.error "down"
        geminiResp := Except.error "boom", costRaises := false
        trackRaises := false, thinking_time := 0
        encodeImage := fun _ => ("", "image/png") } (fun _ => none) [] =
      Except.ok { response := none, ledger := [], sentRequest := req } :=
  api_error_untracked "hi" "gemini-pro" "gemini" none _ (fun _ => none) []
    (Or.inr (Or.inr ⟨rfl, ⟨"boom", rfl⟩⟩))

/-- Helper: in the OpenAI-style branch the request content is always the
openaiMessages list, whatever the network outcome or tracker flags. -/
theorem sentRequest_openai_style (prompt : String) (model0 : Option String)
    (provider : String) (image_path : Option String) (env : CallEnv)
    (osEnv : String → Option String) (ledger : List APIResponse)
    (hp : provider = "openai" ∨ provider = "local" ∨ provider = "deepseek" ∨
      provider = "azure") :
    (query_llm_try prompt model0 provider image_path env osEnv
      ledger).sentRequest =
      some (openaiMessages prompt provider image_path env) := by
  rcases hp with h | h | h | h <;> subst h <;>
    cases model0 <;>
    cases hR : env.openaiResp <;>
    cases hc : env.costRaises <;> cases ht : env.trackRaises <;>
    simp [query_llm_try, defaultModel, hR, hc, ht]

/-- Helper: in the gemini branch the request content is always the prompt
text alone. -/
theorem sentRequest_gemini (prompt : String) (model0 : Option String)
    (image_path : Option String) (env : CallEnv)
    (osEnv : String → Option String) (ledger : List APIResponse) :
    (query_llm_try prompt model0 "gemini" image_path env osEnv
      ledger).sentRequest = some [ContentPart.text prompt] := by
  cases hR : env.geminiResp <;> simp [query_llm_try, hR]

/-- C9: for providers azure, deepseek, local and gemini the image_path
argument is ignored: any request query_llm issues carries no image part;
only the openai and anthropic message builders attach the encoded
image. -/
theorem image_path_ignored (prompt m provider : String)
    (image_path : Option String) (env : CallEnv)
    (osEnv : String → Option String) (ledger : List APIResponse) :
    ((provider = "azure" ∨ provider = "deepseek" ∨ provider = "local" ∨
        provider = "gemini") →
      ∀ r req, query_llm prompt (some ()) (some m) provider image_path env
          osEnv ledger = Except.ok r →
        r.sentRequest = some req → hasImagePart req = false) ∧
    (∀ p, hasImagePart (openaiMessages prompt "openai" (some p) env) = true) ∧
    (∀ p, hasImagePart (anthropicMessages prompt (some p) env) = true) := by
  refine ⟨fun hp r req hq hs => ?_, fun p => ?_, fun p => ?_⟩
  · rw [query_llm_some_client] at hq
    have hr := Except.ok.inj hq
    subst hr
    rcases hp with h | h | h | h <;> subst h
    · rw [sentRequest_openai_style prompt (some m) "azure" image_path env
        osEnv ledger (by simp)] at hs
      obtain rfl := Option.some.inj hs
      cases image_path <;> simp [openaiMessages, hasImagePart]
    · rw [sentRequest_openai_style prompt (some m) "deepseek" image_path env
        osEnv ledger (by simp)] at hs
      obtain rfl := Option.some.inj hs
      cases image_path <;> simp [openaiMessages, hasImagePart]
    · rw [sentRequest_openai_style prompt (some m) "local" image_path env
        osEnv ledger (by simp)] at hs
      obtain rfl := Option.some.inj hs
      cases image_path <;> simp [openaiMessages, hasImagePart]
    · rw [sentRequest_gemini prompt (some m) image_path env osEnv ledger]
        at hs
      obtain rfl := Option.some.inj hs
      simp [hasImagePart]
  · simp [openaiMessages, hasImagePart]
  · simp [anthropicMessages, hasImagePart]

/-- C9 witness: a concrete gemini call with an image path attaches no
image part. -/
theorem image_path_ignored_witness :
    hasImagePart [ContentPart.text "hi"] = false :=
  (image_path_ignored "hi" "gemini-pro" "gemini" (some "img.png")
    { openaiResp := Except.error "n/a", anthropicResp := Except.error "n/a"
      geminiResp := Except.ok { text := "t" }, costRaises := false
      trackRaises := false, thinking_time := 0
      encodeImage := fun _ => ("abc", "image/png") } (fun _ => none) []).1
    (Or.inr (Or.inr (Or.inr rfl)))
    { response := some "t", ledger := []
      sentRequest := some [ContentPart.text "hi"] }
    [ContentPart.text "hi"] rfl rfl

end LlmApi
